import Mathlib

/-!
Shallow embedding of the review-dispatch engine of the repository
(`src/review_engine/handler/default_handler.py` with its configuration
`src/config/config.py`), together with theorems settling the frozen claims
about it.  Python strings are embedded as `String`/`List Char`, Python
`None`-or-value results as `Option`, raised exceptions as `Except PyErr`.
-/

namespace CodeReview

/-! ## Configuration (`src/config/config.py`) -/

/-- `MAX_FILES = 50` (config.py line 130). -/
def MAX_FILES : Nat := 50

/-- `EXCLUDE_FILE_TYPES` (config.py lines 141-153): the *expected* (include)
file suffixes, despite the name. -/
def EXCLUDE_FILE_TYPES : List String :=
  [".js", ".ts", ".tsx", ".less", ".py", ".java", ".class", ".vue", ".go", ".c", ".cpp"]

/-- `IGNORE_FILE_TYPES` (config.py line 156). -/
def IGNORE_FILE_TYPES : List String := ["mod.go"]

/-! ## Python string primitives used by the handler -/

/-- Python `s.endswith(ext)`: exact, case-sensitive suffix test. -/
def endswith (s ext : String) : Bool := ext.data.isSuffixOf s.data

/-- The ASCII whitespace characters Python's `str.strip()` removes
(`' '`, `'\t'`, `'\n'`, `'\r'`, `'\x0b'`, `'\x0c'`). -/
def pySpace (c : Char) : Bool :=
  c == ' ' || c == '\t' || c == '\n' || c == '\r' || c == '\x0b' || c == '\x0c'

/-- Python `str.strip()` on a character list: drop leading and trailing
whitespace. -/
def pyStripList (l : List Char) : List Char :=
  ((l.dropWhile pySpace).reverse.dropWhile pySpace).reverse

/-- Python `content.strip()`. -/
def pyStrip (s : String) : String := String.mk (pyStripList s.data)

/-! ## `remove_think_content` (default_handler.py lines 84-90)

`re.sub(r"<think>.*?</think>", "", content, flags=re.DOTALL)` followed by
`.strip()`.  The regex substitution scans left to right: a match starts at
the leftmost occurrence of `<think>` after which a `</think>` occurs, the
non-greedy `.*?` stops at the earliest such `</think>`, and scanning resumes
right after the removed block (matches never overlap and never span a
removal boundary). -/

/-- The characters of the opening delimiter `<think>` (length 7). -/
def openTag : List Char := "<think>".data

/-- The characters of the closing delimiter `</think>` (length 8). -/
def closeTag : List Char := "</think>".data

/-- Index of the leftmost occurrence of `pat` in `s` (the least `i` with
`pat` a prefix of `s.drop i`), as the regex engine finds it. -/
def findSub (pat s : List Char) : Option Nat :=
  (List.range (s.length + 1)).find? (fun i => pat.isPrefixOf (s.drop i))

/-- The leftmost match of `<think>.*?</think>` in `s`: `(p, q)` where the
open tag starts at `p` and the close tag starts at `q` (so the match is
`s[p : q+8]`).  `none` when the pattern does not match. -/
def findThink (s : List Char) : Option (Nat × Nat) :=
  match findSub openTag s with
  | none => none
  | some p =>
    match findSub closeTag (s.drop (p + 7)) with
    | none => none
    | some r => some (p, p + 7 + r)

/-- One fuel-indexed pass of `re.sub(r"<think>.*?</think>", "", s)`: remove
the leftmost match and continue after it.  Each removal erases at least 15
characters, so fuel `s.length` always suffices and the fuel never runs out
on the branch that recurses. -/
def subThinkFuel : Nat → List Char → List Char
  | 0, s => s
  | fuel + 1, s =>
    match findThink s with
    | none => s
    | some (p, q) => s.take p ++ subThinkFuel fuel (s.drop (q + 8))

/-- `re.sub(r"<think>.*?</think>", "", s, flags=re.DOTALL)`. -/
def subThink (s : List Char) : List Char := subThinkFuel s.length s

/-- Python `str.replace` on character lists, fuel-indexed: replace the
leftmost occurrence of `pat` and continue after the replacement (the
replacement itself is never rescanned).  Fuel `s.length` suffices for a
non-empty `pat`, since every step drops at least one character of `s`. -/
def replaceFuel (pat rep : List Char) : Nat → List Char → List Char
  | 0, s => s
  | fuel + 1, s =>
    match findSub pat s with
    | none => s
    | some p => s.take p ++ rep ++ replaceFuel pat rep fuel (s.drop (p + pat.length))

/-- Python `s.replace(pat, rep)` (used as `.replace("\n\n", "\n")` at
line 69). -/
def pyReplace (s pat rep : String) : String :=
  String.mk (replaceFuel pat.data rep.data s.data.length s.data)

/-- `remove_think_content` (default_handler.py lines 84-90): remove every
`<think>...</think>` block, then `.strip()`. -/
def remove_think_content (content : String) : String :=
  pyStrip (String.mk (subThink content.data))

/-! ## Data model -/

/-- One entry of the change list a GitLab MR webhook yields: the fields the
handler reads (`change["new_path"]`, `change["new_file"]`, `change["diff"]`). -/
structure Change where
  new_path : String
  new_file : Bool
  diff : String
deriving DecidableEq

/-- One element of the `messages` payload sent to the model. -/
structure Message where
  role : String
  content : String
deriving DecidableEq

/-- A raised Python exception: `typeError` for the `TypeError` raised by
`"\n\n".join` on a non-string element and by `len(None)`; `exn` for any
other exception (e.g. one raised by the model client). -/
inductive PyErr where
  | typeError
  | exn (msg : String)
deriving DecidableEq

/-- The webhook payload fields the handler interpolates
(`hook_info['project']['name']`, `hook_info['object_attributes']['url']`,
source/target branch). -/
structure HookInfo where
  project_name : String
  mr_url : String
  source_branch : String
  target_branch : String
deriving DecidableEq

/-- One `reply.add_reply({...})` call: the dictionary's fields. -/
structure Reply where
  title : Option String
  content : String
  msg_type : String
  target : String
deriving DecidableEq

/-- The LLM client, embedded as its observable behaviour: the source calls
`model.generate_text(messages)` and then reads `model.get_respond_content()`
and `model.get_respond_tokens()` of the same call; `respond` gives that
call's `(content, tokens)`, or the exception the call raises. -/
structure ModelBehavior where
  respond : List Message → Except PyErr (String × Nat)

/-- `GPT_MESSAGE` (config.py lines 56-97), the system prompt. -/
def GPT_MESSAGE : String :=
  "\n你是一位资深编程专家，gitlab的分支代码变更将以git diff 字符串的形式提供，请你帮忙review本段代码。然后你review内容的返回内容必须严格遵守下面的格式，包括标题内容。模板中的变量内容解释：\n\n\n\n变量5为: 代码中的优点。\n变量1:给review打分，分数区间为0~100分。\n变量2：code review发现的问题点。\n变量3：具体的修改建议。\n变量4：是你给出的修改后的代码，只列出有修改的部分 \n\n\n必须要求：\n1. 以精炼的语言、严厉的语气指出存在的问题。\n2. 你的反馈内容必须使用严谨的markdown格式 。\n3. 不要携带变量内容解释信息。\n4. 修改后的代码不要全部输出出来，只输出有修改的部分。\n5. 有清晰的标题结构。有清晰的标题结构。有清晰的标题结构。\n\n\n返回格式严格如下：\n\n\n### 😀代码评分：\x7b变量1\x7d\n\n\n#### ✅代码优点：\n\x7b变量5\x7d\n\n\n#### 🤔问题点：\n\x7b变量2\x7d\n\n\n#### 🎯修改建议：\n\x7b变量3\x7d\n\n\n#### 💻修改后的代码：\n\x7b变量4\x7d\n\n         "

/-! ## `generate_review_note` (default_handler.py lines 38-81) -/

/-- The body of `generate_review_note`'s `try` block, for a given
diff-filter `fdc` (see `filter_diff_content`) and model behaviour: builds
the two-message payload, calls the model, strips think blocks and formats
the note.  A step that raises makes the whole block raise. -/
def generate_review_note_try (fdc : String → String) (mb : ModelBehavior)
    (change : Change) : Except PyErr String := do
  let content := fdc change.diff
  let messages : List Message :=
    [⟨"system", GPT_MESSAGE⟩, ⟨"user", "请review这部分代码变更" ++ content⟩]
  let (raw, total_tokens) ← mb.respond messages
  let new_path := change.new_path
  let response_content := remove_think_content (pyReplace raw "\n\n" "\n")
  let review_note := "# 📚`" ++ new_path ++ "`" ++ "\n\n"
    ++ "(" ++ toString total_tokens ++ " tokens) " ++ "AI review 意见如下:" ++ "\n\n"
    ++ response_content ++ "\n\n---\n\n---\n\n"
  pure review_note

/-- `generate_review_note` (lines 38-81): the whole body sits inside
`try ... except Exception: log.error(...)`, so the function never raises;
it returns the note, or `None` (here `none`) when any step raised. -/
def generate_review_note (fdc : String → String) (mb : ModelBehavior)
    (change : Change) : Option String :=
  match generate_review_note_try fdc mb change with
  | Except.ok review_note => some review_note
  | Except.error _ => none

/-- The `retrying.retry` decorator's loop: call `f` (the attempt index is
passed for bookkeeping); when the call raises and `remaining` further
attempts are allowed, wait `wait_fixed` ms and call again.  Returns the
final outcome and the number of attempts actually made. -/
def retryAux (f : Nat → Except PyErr α) : Nat → Nat → Except PyErr α × Nat
  | attempt, remaining =>
    match f attempt, remaining with
    | Except.ok a, _ => (Except.ok a, attempt + 1)
    | Except.error e, 0 => (Except.error e, attempt + 1)
    | Except.error _, r + 1 => retryAux f (attempt + 1) r

/-- `@retry(stop_max_attempt_number=3, wait_fixed=60000)`: up to
`maxAttempts` total calls with a fixed wait between them.  The wait does
not affect the value, only the schedule; `waitMs` records it. -/
def retryCall (maxAttempts waitMs : Nat) (f : Nat → Except PyErr α) :
    Except PyErr α × Nat :=
  retryAux f 0 (maxAttempts - 1)

/-- The decorated `generate_review_note` as `chat_review` calls it: the
decorator re-calls the function only when it raises, and the function's
blanket `except` means it returns normally (possibly `None`) instead of
raising. -/
def generate_review_note_retry (fdc : String → String) (mb : ModelBehavior)
    (change : Change) : Except PyErr (Option String) × Nat :=
  retryCall 3 60000 (fun _ => Except.ok (generate_review_note fdc mb change))

/-! ## `chat_review` (default_handler.py lines 11-35) -/

/-- The filter `chat_review` (lines 24-28) and `default_handle`
(lines 142-147) both apply to a change's `new_path`:
`any(path.endswith(ext) for ext in inc) and not any(path.endswith(ext) for
ext in ign)`. -/
def is_reviewable (path : String) (inc ign : List String) : Bool :=
  (inc.any (fun ext => endswith path ext)) && !(ign.any (fun ext => endswith path ext))

/-- A change the handler submits for review: its `new_path` passes the
filter with the configured extension sets. -/
def review_target (change : Change) : Bool :=
  is_reviewable change.new_path EXCLUDE_FILE_TYPES IGNORE_FILE_TYPES

/-- `"\n\n".join(review_results)`: Python's `str.join` raises `TypeError`
when an element is not a string — a worker that failed appended `None`. -/
def joinReviews (review_results : List (Option String)) : Except PyErr String :=
  if review_results.all Option.isSome then
    Except.ok (String.intercalate "\n\n" (review_results.filterMap id))
  else Except.error PyErr.typeError

/-- `chat_review(changes, generate_review, model)` (lines 11-35): submits
one worker task per change passing the filter; each finished task appends
`generate_review(change)` to the shared `review_results` under
`result_lock`; after `concurrent.futures.wait`, joins the results.
`completed` is the order in which the tasks finished (and so appended):
faithfulness to the source requires `completed` to be a permutation of
`changes.filter review_target`, carried as a hypothesis by the theorems. -/
def chat_review (gen : Change → Option String) (changes completed : List Change) :
    Except PyErr String :=
  let _submitted := changes.filter review_target
  let review_results := completed.map gen
  if review_results.isEmpty then Except.ok ""
  else joinReviews review_results

/-! ## `MainReviewHandle` (default_handler.py lines 93-241) -/

/-- The DingTalk summary sent when `review_info` is non-empty
(lines 182-198). -/
def success_summary (hook : HookInfo) (n : Nat) : String :=
  "## 项目名称: **" ++ hook.project_name ++ "**\n\n"
  ++ "### 合并请求详情\n"
  ++ "- **MR URL**: [查看合并请求](" ++ hook.mr_url ++ ")\n"
  ++ "- **源分支**: `" ++ hook.source_branch ++ "`\n"
  ++ "- **目标分支**: `" ++ hook.target_branch ++ "`\n\n"
  ++ "### 变更详情\n"
  ++ "- **修改文件个数**: `" ++ toString n ++ "`\n"
  ++ "- **Code Review 状态**: ✅\n"

/-- The DingTalk summary sent when `review_info` is empty (lines 200-217). -/
def pass_summary (hook : HookInfo) (n : Nat) : String :=
  "## 项目名称: **" ++ hook.project_name ++ "**\n\n"
  ++ "### 合并请求详情\n"
  ++ "- **MR URL**: [查看合并请求](" ++ hook.mr_url ++ ")\n"
  ++ "- **源分支**: `" ++ hook.source_branch ++ "`\n"
  ++ "- **目标分支**: `" ++ hook.target_branch ++ "`\n\n"
  ++ "### 变更详情\n"
  ++ "- **修改文件个数**: `" ++ toString n ++ "`\n"
  ++ "- **备注**: 存在已经提交的 MR，所有文件已进行 MR\n"
  ++ "- **Code Review 状态**: pass ✅\n"

/-- The DingTalk notice of the `len(changes) > MAX_FILES` branch
(lines 219-235). -/
def overlimit_summary (hook : HookInfo) (n : Nat) : String :=
  "## 项目名称: **" ++ hook.project_name ++ "**\n\n"
  ++ "### 备注\n"
  ++ "修改 `" ++ toString n ++ "` 个文件 > 50 个文件，不进行 Code Review ⚠️\n\n"
  ++ "### 合并请求详情\n"
  ++ "- **MR URL**: [查看合并请求](" ++ hook.mr_url ++ ")\n"
  ++ "- **源分支**: `" ++ hook.source_branch ++ "`\n"
  ++ "- **目标分支**: `" ++ hook.target_branch ++ "`\n"

/-- Modelled from the spec: the external `Fetcher.get_changes() ->
sequence<ChangedFile>` is not under `src/`; it "may fail", and a failed
fetch yields no change list.  A successful fetch is `some changes`, a
failed one `none` (Python `None`) — the value `default_handle`'s falsy
check `if not changes` and `merge_handle`'s guarded interpolation
`len(changes) if changes else 0` (line 113) both anticipate. -/
def FetchResult : Type := Option (List Change)

/-- `MainReviewHandle.default_handle` (lines 130-241), returning the list
of `reply.add_reply` calls in order, or the exception that escapes it.
`changes` is the fetched value passed in by `merge_handle`; `completed` is
the completion order of `chat_review`'s worker tasks (see `chat_review`);
`merge_info` (`gitlabMergeRequestFetcher.get_info()`) is never read. -/
def default_handle (fdc : String → String) (mb : ModelBehavior)
    (completed : List Change) (changes : FetchResult)
    (merge_info : Option String) (hook : HookInfo) : Except PyErr (List Reply) :=
  let _ := merge_info
  match changes with
  | none => Except.ok []            -- line 133 `if not changes:` → line 135 return
  | some cs =>
    if cs.isEmpty then Except.ok [] -- line 133: an empty list is falsy → return
    else if cs.length > MAX_FILES then
      Except.ok []                  -- lines 137-139: log and return, no reply
    else
      -- lines 142-147
      let review_files := cs.filter review_target
      if review_files.isEmpty then
        Except.ok []                -- lines 149-151: log and return, no reply
      else if !cs.isEmpty && cs.length ≤ MAX_FILES then   -- line 161
        match chat_review (generate_review_note fdc mb) cs completed with
        | Except.error e => Except.error e                -- line 167 raises through
        | Except.ok review_info =>
          if review_info ≠ "" then                        -- line 168 `if review_info:`
            Except.ok
              [⟨none, review_info, "MAIN, SINGLE", "all"⟩,               -- lines 172-178
               ⟨some "__MAIN_REVIEW__", success_summary hook cs.length,
                 "MAIN, SINGLE", "dingtalk"⟩]                            -- lines 182-198
          else
            Except.ok
              [⟨some "__MAIN_REVIEW__", pass_summary hook cs.length,
                 "MAIN, SINGLE", "dingtalk"⟩]                            -- lines 200-217
      else if !cs.isEmpty && cs.length > MAX_FILES then   -- line 219 (dead branch)
        Except.ok
          [⟨some "__MAIN_REVIEW__", overlimit_summary hook cs.length,
             "MAIN, SINGLE", "dingtalk"⟩]                                -- lines 220-235
      else
        Except.ok []                -- lines 237-241: log.error, no reply (dead branch)

/-- `MainReviewHandle.merge_handle` (lines 94-128): logs the MR info,
fetches the change list, logs `f"检测到 \x7blen(changes)\x7d 个文件变更"`
(line 108) — `len(None)` raises `TypeError` when the fetch failed — then
fetches `merge_info` and delegates to `default_handle`. -/
def merge_handle (fdc : String → String) (mb : ModelBehavior)
    (completed : List Change) (fetched : FetchResult)
    (merge_info : Option String) (hook : HookInfo) : Except PyErr (List Reply) :=
  match fetched with
  | none => Except.error PyErr.typeError   -- line 108: len(changes), changes = None
  | some cs => default_handle fdc mb completed (some cs) merge_info hook

/-! ## The shared results collection (lines 13-33)

`process_change` appends its worker's result to `review_results` while
holding `result_lock`, so every append is one atomic event; a run of the
dispatch is then described by the order `completed` in which the worker
tasks performed their appends — any permutation of the submitted tasks. -/

/-- The state of `review_results` after the tasks in `completed` have each
performed their locked `review_results.append(result)`, tagged with the
task's change so that per-task accounting is expressible. -/
def collect_results (gen : Change → Option String) (completed : List Change) :
    List (Change × Option String) :=
  completed.foldl (fun acc change => acc ++ [(change, gen change)]) []

/-- Whether `pat` occurs as a contiguous substring of `s`. -/
def containsSub (pat s : List Char) : Bool := (findSub pat s).isSome

/-- How many of the emitted replies are primary (OpsChannel/DingTalk)
notifications: the dictionaries with `"target": "dingtalk"`. -/
def primary_count (replies : List Reply) : Nat :=
  replies.countP (fun reply => reply.target == "dingtalk")

/-- How many of the emitted replies are review-comment notifications: the
dictionaries with `"target": "all"`. -/
def comment_count (replies : List Reply) : Nat :=
  replies.countP (fun reply => reply.target == "all")

/-! ## Concrete fixtures for witnesses and counterexamples -/

/-- A webhook context with distinct field values. -/
def hook0 : HookInfo := ⟨"proj", "http://mr/1", "feat", "main"⟩

/-- A model whose every call succeeds with content `"R"` and 1 token. -/
def mbOk : ModelBehavior := ⟨fun _ => Except.ok ("R", 1)⟩

/-- A model whose every call raises. -/
def mbErr : ModelBehavior := ⟨fun _ => Except.error (PyErr.exn "boom")⟩

/-- A change that passes the extension filter (`.py` is included). -/
def pyChange : Change := ⟨"a.py", false, "d"⟩

/-- A change that fails the extension filter (`.md` is not included). -/
def mdChange : Change := ⟨"README.md", false, "d"⟩

/-- A change that passes the filter (`.go` included, not `mod.go`). -/
def goChange : Change := ⟨"b.go", true, "g"⟩

/-- A change excluded by the ignore list although `.go` is included. -/
def modGoChange : Change := ⟨"pkg/mod.go", false, "m"⟩

/-- The note `generate_review_note` produces for `pyChange` under `mbOk`. -/
def pyNote : String :=
  "# 📚`a.py`\n\n(1 tokens) AI review 意见如下:\n\nR\n\n---\n\n---\n\n"

/-! ## Helper lemmas -/

theorem foldl_append_eq_map (f : α → β) :
    ∀ (l : List α) (acc : List β),
      l.foldl (fun a x => a ++ [f x]) acc = acc ++ l.map f
  | [], acc => by simp
  | x :: xs, acc => by
    simp [foldl_append_eq_map f xs]

theorem collect_results_eq_map (gen : Change → Option String)
    (completed : List Change) :
    collect_results gen completed = completed.map (fun c => (c, gen c)) := by
  simpa using foldl_append_eq_map (fun c => (c, gen c)) completed []

theorem findSub_eq_none_iff {pat s : List Char} :
    findSub pat s = none ↔ ∀ i, i ≤ s.length → ¬pat.isPrefixOf (s.drop i) := by
  simp [findSub, List.find?_eq_none, Nat.lt_succ_iff]

theorem findSub_drop_eq_none {pat s : List Char} (hne : pat ≠ [])
    (h : findSub pat s = none) (k : Nat) : findSub pat (s.drop k) = none := by
  rw [findSub_eq_none_iff] at h ⊢
  intro i _
  rw [List.drop_drop]
  by_cases hik : k + i ≤ s.length
  · exact h (k + i) hik
  · have hnil : s.drop (k + i) = [] :=
      List.drop_eq_nil_of_le (Nat.le_of_not_le hik)
    rw [hnil]
    cases pat with
    | nil => exact absurd rfl hne
    | cons a t => simp [List.isPrefixOf]

theorem subThink_eq_self_of_no_open {s : List Char}
    (h : findSub openTag s = none) : subThink s = s := by
  unfold subThink
  cases s.length with
  | zero => rfl
  | succ n => simp [subThinkFuel, findThink, h]

theorem subThink_eq_self_of_no_close {s : List Char}
    (h : findSub closeTag s = none) : subThink s = s := by
  have hft : findThink s = none := by
    unfold findThink
    cases ho : findSub openTag s with
    | none => rfl
    | some p =>
      have hd := findSub_drop_eq_none (show closeTag ≠ [] by decide) h (p + 7)
      simp [hd]
  unfold subThink
  cases s.length with
  | zero => rfl
  | succ n => simp [subThinkFuel, hft]

theorem pyStripList_eq_rdrop (l : List Char) :
    pyStripList l = List.rdropWhile pySpace (l.dropWhile pySpace) := rfl

theorem head?_dropWhile_not (p : α → Bool) :
    ∀ (l : List α) (a : α), (l.dropWhile p).head? = some a → p a = false
  | [], a => by simp [List.dropWhile]
  | x :: xs, a => by
    rw [List.dropWhile_cons]
    by_cases hx : p x
    · rw [if_pos hx]
      exact head?_dropWhile_not p xs a
    · rw [if_neg hx]
      intro h
      simp only [List.head?_cons, Option.some.injEq] at h
      subst h
      simpa using hx

theorem dropWhile_eq_self_of_prefix {p : α → Bool} {l x : List α}
    (hx : x <+: l.dropWhile p) : x.dropWhile p = x := by
  cases x with
  | nil => rfl
  | cons a xs =>
    obtain ⟨t, ht⟩ := hx
    have hh : (l.dropWhile p).head? = some a := by rw [← ht]; rfl
    have hpa : p a = false := head?_dropWhile_not p l a hh
    rw [List.dropWhile_cons, if_neg (by simp [hpa])]

theorem pyStripList_idem (l : List Char) :
    pyStripList (pyStripList l) = pyStripList l := by
  rw [pyStripList_eq_rdrop, pyStripList_eq_rdrop]
  have h1 : List.dropWhile pySpace (List.rdropWhile pySpace (l.dropWhile pySpace))
      = List.rdropWhile pySpace (l.dropWhile pySpace) :=
    dropWhile_eq_self_of_prefix (List.rdropWhile_prefix pySpace (l.dropWhile pySpace))
  rw [h1, List.rdropWhile_idempotent]

theorem pyStrip_idem (s : String) : pyStrip (pyStrip s) = pyStrip s := by
  show String.mk (pyStripList (pyStripList s.data)) = String.mk (pyStripList s.data)
  rw [pyStripList_idem]

theorem containsSub_false_iff {pat s : List Char} :
    containsSub pat s = false ↔ findSub pat s = none := by
  unfold containsSub
  cases findSub pat s <;> simp

/-! ## Claim theorems -/

/-- C6: for every file path `p` and extension sets `(inc, ign)`, the
file-filter predicate holds iff `p` ends with some suffix in `inc` and ends
with no suffix in `ign` (exact, case-sensitive suffix matching on the raw
path); in particular a path matching both an include and an ignore suffix
is excluded — ignore overrides include. -/
theorem c6_filter_iff (p : String) (inc ign : List String) :
    (is_reviewable p inc ign = true ↔
      ((∃ e ∈ inc, e.data <:+ p.data) ∧ ∀ e ∈ ign, ¬e.data <:+ p.data))
    ∧ (∀ e₁ ∈ inc, ∀ e₂ ∈ ign, e₁.data <:+ p.data → e₂.data <:+ p.data →
        is_reviewable p inc ign = false) := by
  have hiff : is_reviewable p inc ign = true ↔
      ((∃ e ∈ inc, e.data <:+ p.data) ∧ ∀ e ∈ ign, ¬e.data <:+ p.data) := by
    simp [is_reviewable, endswith, List.any_eq_true, List.isSuffixOf_iff_suffix]
  refine ⟨hiff, fun e₁ he₁ e₂ he₂ hs₁ hs₂ => ?_⟩
  cases hb : is_reviewable p inc ign with
  | false => rfl
  | true =>
    rcases hiff.mp hb with ⟨-, hnone⟩
    exact absurd hs₂ (hnone e₂ he₂)

/-- C6 witness: `pkg/mod.go` ends with the include suffix `.go` and with
the ignore suffix `mod.go`, and the filter excludes it. -/
theorem c6_filter_iff_witness :
    is_reviewable "pkg/mod.go" EXCLUDE_FILE_TYPES IGNORE_FILE_TYPES = false :=
  (c6_filter_iff "pkg/mod.go" EXCLUDE_FILE_TYPES IGNORE_FILE_TYPES).2
    ".go" (by decide) "mod.go" (by decide) (by decide) (by decide)

/-- C7 counterexample: stripping can splice the two halves of a broken-up
delimiter pair into a new `<think>...</think>` block, so a second
application removes more: on this input one application yields
`<think>abc</think>` and a second application yields the empty string. -/
theorem c7_not_idempotent :
    remove_think_content (remove_think_content "<thi<think>x</think>nk>abc</think>")
      ≠ remove_think_content "<thi<think>x</think>nk>abc</think>" := by
  decide

/-- C7 (amended): applying the reasoning-stripping function twice yields
the same result as applying it once for every input whose once-stripped
result contains no residual `<think>` open delimiter; in general the
equation fails, because removal can splice a new delimited block
(see the counterexample). -/
theorem c7_idempotent_of_no_residual_open (s : String)
    (h : containsSub openTag (remove_think_content s).data = false) :
    remove_think_content (remove_think_content s) = remove_think_content s := by
  have hnone : findSub openTag (remove_think_content s).data = none :=
    containsSub_false_iff.mp h
  show pyStrip (String.mk (subThink (remove_think_content s).data)) = _
  rw [subThink_eq_self_of_no_open hnone]
  exact pyStrip_idem (String.mk (subThink s.data))

/-- C7 witness: on `"a<think>b</think>c"` one application leaves no open
delimiter, and a second application changes nothing. -/
theorem c7_idempotent_witness :
    remove_think_content (remove_think_content "a<think>b</think>c")
      = remove_think_content "a<think>b</think>c" :=
  c7_idempotent_of_no_residual_open "a<think>b</think>c" (by decide)

/-- C8 counterexample: `" <think>abc"` contains an unterminated open tag
and no close tag, yet the function does not return it unmodified — the
trailing `.strip()` removes the leading blank. -/
theorem c8_not_unmodified :
    (containsSub openTag " <think>abc".data = true
      ∧ containsSub closeTag " <think>abc".data = false)
    ∧ remove_think_content " <think>abc" ≠ " <think>abc" := by
  decide

/-- C8 (amended): on every input containing a reasoning open tag but no
close tag the regex does not match, so the content is returned with only
surrounding whitespace stripped — the unterminated block itself is left in
place (fail-open), but the result is `strip(s)`, not `s` unmodified. -/
theorem c8_fail_open (s : String)
    (ho : containsSub openTag s.data = true)
    (hc : containsSub closeTag s.data = false) :
    remove_think_content s = pyStrip s := by
  have hnone : findSub closeTag s.data = none := containsSub_false_iff.mp hc
  show pyStrip (String.mk (subThink s.data)) = pyStrip s
  rw [subThink_eq_self_of_no_close hnone]

/-- C8 witness: a concrete unterminated input, evaluated. -/
theorem c8_fail_open_witness :
    remove_think_content " \t<think>xyz " = pyStrip " \t<think>xyz " :=
  c8_fail_open " \t<think>xyz " (by decide) (by decide)

/-- C9: each worker task's locked `review_results.append` is one atomic
event, so a run of one dispatch call is described by the completion order
`completed`, an arbitrary permutation of the submitted (filter-passing)
changes.  For every such order, the final collection has exactly one entry
per completed worker task: its length is the number of submitted tasks,
its entries (by originating change) are a permutation of the submitted
changes, and for each change `c` the number of entries originating from
`c` equals the number of tasks submitted for `c` — no result is lost and
none is duplicated. -/
theorem c9_collection_exact (gen : Change → Option String)
    (changes completed : List Change)
    (h : completed.Perm (changes.filter review_target)) :
    (collect_results gen completed).length = (changes.filter review_target).length
    ∧ ((collect_results gen completed).map Prod.fst).Perm (changes.filter review_target)
    ∧ ∀ c : Change, (collect_results gen completed).countP (fun e => e.1 == c)
        = (changes.filter review_target).count c := by
  have hc : collect_results gen completed = completed.map (fun c => (c, gen c)) :=
    collect_results_eq_map gen completed
  have hfst : (collect_results gen completed).map Prod.fst = completed := by
    rw [hc, List.map_map]
    show completed.map (fun c => c) = completed
    exact List.map_id' completed
  refine ⟨?_, ?_, ?_⟩
  · rw [hc, List.length_map, h.length_eq]
  · rw [hfst]
    exact h
  · intro c
    rw [hc, List.countP_map]
    have hcomp : ((fun e : Change × Option String => e.1 == c)
        ∘ fun x => (x, gen x)) = fun x => x == c := rfl
    rw [hcomp]
    exact h.count_eq c

/-- C9 witness: three changed files of which two pass the filter; the
workers complete in reverse order, and the collection has exactly one entry
per task. -/
theorem c9_collection_exact_witness :
    (collect_results (fun c => some c.new_path) [goChange, pyChange]).length
        = ([pyChange, mdChange, goChange].filter review_target).length
    ∧ ((collect_results (fun c => some c.new_path) [goChange, pyChange]).map
        Prod.fst).Perm ([pyChange, mdChange, goChange].filter review_target)
    ∧ ∀ c : Change, (collect_results (fun c => some c.new_path)
          [goChange, pyChange]).countP (fun e => e.1 == c)
        = ([pyChange, mdChange, goChange].filter review_target).count c :=
  c9_collection_exact (fun c => some c.new_path) [pyChange, mdChange, goChange]
    [goChange, pyChange] (by decide)

/-- C10: `generate_review_note` never propagates an exception: whenever the
body of its `try` block raises, the function returns `None` instead of a
note; consequently the `@retry` decorator — which re-calls only a function
that raises — observes a normal return, makes exactly one attempt, and
never re-attempts. -/
theorem c10_swallows_exceptions (fdc : String → String) (mb : ModelBehavior)
    (change : Change) :
    (∀ e : PyErr, generate_review_note_try fdc mb change = Except.error e →
        generate_review_note fdc mb change = none)
    ∧ generate_review_note_retry fdc mb change
        = (Except.ok (generate_review_note fdc mb change), 1) := by
  constructor
  · intro e he
    unfold generate_review_note
    rw [he]
  · rfl

/-- C10 witness: with a model whose call raises, the worker returns `none`
and the decorated call makes exactly one attempt. -/
theorem c10_swallows_exceptions_witness :
    generate_review_note id mbErr pyChange = none
    ∧ generate_review_note_retry id mbErr pyChange = (Except.ok none, 1) := by
  have h := c10_swallows_exceptions id mbErr pyChange
  have h1 : generate_review_note id mbErr pyChange = none :=
    h.1 (PyErr.exn "boom") rfl
  exact ⟨h1, by rw [h.2, h1]⟩

/-- C3: the retry contract the spec states does not hold of the code.  With
one reviewable file whose model call raises on every attempt: the blanket
`except` inside `generate_review_note` returns `None` after a single
attempt, so the `@retry(stop_max_attempt_number=3, wait_fixed=60000)`
decorator never retries (one attempt, not three); the `None` is appended
to `review_results` and `"\n\n".join` raises `TypeError` out of the
dispatcher — the failed file is neither excluded silently nor contained. -/
theorem c3_retry_defeated :
    chat_review (generate_review_note id mbErr) [pyChange] [pyChange]
        = Except.error PyErr.typeError
    ∧ generate_review_note_retry id mbErr pyChange = (Except.ok none, 1) :=
  ⟨rfl, rfl⟩

/-- C1: on an MR event with 51 changed files (all reviewable, with a model
that would raise if called) the handler returns at the early limit check
with no dispatch, no LLM call — and no reply at all: the OverFileLimit
notification branch (lines 219-235) is unreachable, so the claimed
OverFileLimit OpsChannel notice is never emitted. -/
theorem c1_overlimit_emits_nothing :
    default_handle id mbErr (List.replicate 51 pyChange)
        (some (List.replicate 51 pyChange)) none hook0 = Except.ok [] := by
  rfl

/-- C2 counterexample: a non-empty fetched change list (one `.md` file)
for which the handler emits zero notifications — not exactly one primary
notification. -/
theorem c2_zero_notifications :
    default_handle id mbErr [] (some [⟨"README.md", false, "x"⟩]) none hook0
        = Except.ok []
    ∧ primary_count [] ≠ 1 :=
  ⟨rfl, by decide⟩

/-- C2 (amended): for every MR event whose non-empty fetched change list is
within the MAX_FILES limit and has at least one reviewable file, and whose
dispatch returns normally with aggregated text `s`, the handler emits
exactly one primary (DingTalk) notification, plus one review-comment
notification exactly when `s` is non-empty; when the list exceeds
MAX_FILES or has no reviewable file, zero notifications are emitted
(see the counterexample). -/
theorem c2_one_primary (fdc : String → String) (mb : ModelBehavior)
    (cs completed : List Change) (mi : Option String) (hook : HookInfo)
    (s : String)
    (h1 : cs ≠ []) (h2 : cs.length ≤ MAX_FILES)
    (h3 : cs.filter review_target ≠ [])
    (h4 : chat_review (generate_review_note fdc mb) cs completed = Except.ok s) :
    ∃ rs : List Reply,
      default_handle fdc mb completed (some cs) mi hook = Except.ok rs
      ∧ primary_count rs = 1
      ∧ comment_count rs = (if s = "" then 0 else 1) := by
  have e1 : cs.isEmpty = false := by
    cases cs with
    | nil => exact absurd rfl h1
    | cons a t => rfl
  have e2 : ¬cs.length > MAX_FILES := not_lt.mpr h2
  have e3 : (cs.filter review_target).isEmpty = false := by
    cases hcf : cs.filter review_target with
    | nil => exact absurd hcf h3
    | cons a t => rfl
  by_cases hs : s = ""
  · refine ⟨[⟨some "__MAIN_REVIEW__", pass_summary hook cs.length,
        "MAIN, SINGLE", "dingtalk"⟩], ?_, rfl, ?_⟩
    · simp [default_handle, e1, e2, e3, h2, h4, hs]
    · rw [if_pos hs]
      rfl
  · refine ⟨[⟨none, s, "MAIN, SINGLE", "all"⟩,
      ⟨some "__MAIN_REVIEW__", success_summary hook cs.length,
        "MAIN, SINGLE", "dingtalk"⟩], ?_, rfl, ?_⟩
    · simp [default_handle, e1, e2, e3, h2, h4, hs]
    · rw [if_neg hs]
      rfl

/-- C2 witness: one reviewable file, a model that answers, and the worker's
completion order: the handler emits the review comment and exactly one
primary DingTalk summary. -/
theorem c2_one_primary_witness :
    ∃ rs : List Reply,
      default_handle id mbOk [pyChange] (some [pyChange]) none hook0
          = Except.ok rs
      ∧ primary_count rs = 1
      ∧ comment_count rs = (if pyNote = "" then 0 else 1) :=
  c2_one_primary id mbOk [pyChange] [pyChange] none hook0 pyNote
    (by decide) (by decide) (by decide) (by rfl)

/-- C4 counterexample: a non-empty change list within the limit with no
reviewable file: the handler logs and returns with zero replies — the
claimed NoReviewableFiles OpsChannel notification is not emitted. -/
theorem c4_no_reviewable_counterexample :
    default_handle id mbErr [] (some [⟨"notes.txt", false, "n"⟩]) none hook0
        = Except.ok []
    ∧ primary_count [] = 0 ∧ comment_count [] = 0 :=
  ⟨rfl, rfl, rfl⟩

/-- C4 (amended): for every MR event whose fetched change list is
non-empty, within the MAX_FILES limit, and contains no file passing the
include/ignore filter, the handler returns with no notification at all
(only a log), and no LLM call occurs — the result is `ok []` for every
model behaviour. -/
theorem c4_no_reviewable_silent (fdc : String → String) (mb : ModelBehavior)
    (completed cs : List Change) (mi : Option String) (hook : HookInfo)
    (h1 : cs ≠ []) (h2 : cs.length ≤ MAX_FILES)
    (h3 : cs.filter review_target = []) :
    default_handle fdc mb completed (some cs) mi hook = Except.ok [] := by
  have e1 : cs.isEmpty = false := by
    cases cs with
    | nil => exact absurd rfl h1
    | cons a t => rfl
  have e2 : ¬cs.length > MAX_FILES := not_lt.mpr h2
  simp [default_handle, e1, e2, h3]

/-- C4 witness: a single `.md` file, with a model that would raise if it
were ever called. -/
theorem c4_no_reviewable_silent_witness :
    default_handle id mbErr [] (some [mdChange]) none hook0 = Except.ok [] :=
  c4_no_reviewable_silent id mbErr [] [mdChange] none hook0
    (by decide) (by decide) (by decide)

/-- C5: when the external fetch of changes fails and yields no change list
(`get_changes()` returns `None`), `merge_handle` raises `TypeError` while
interpolating `len(changes)` into its file-count log line (line 108),
instead of logging and returning silently as claimed. -/
theorem c5_fetch_failure_raises :
    merge_handle id mbOk [] none none hook0 = Except.error PyErr.typeError := by
  rfl

end CodeReview
